import Mathlib

/-
  Verification of the decision core of advanced_trading_bot.py
  (BONK-USDT order-book scalping bot).

  Shallow embedding: prices, quantities and timestamps are rationals;
  the global mutable variables of the script become an explicit BotState
  record; each network interaction is a parameter (account balance,
  exchange response, order status) so that the decision functions are
  pure state transformers returning the new state together with the
  order submitted to the exchange, if any.
-/

namespace Bot

/-! ## Trading parameters (module-level constants of the script) -/

def ORDER_AMOUNT_USDT : ℚ := 100

def MIN_PROFIT_MARGIN : ℚ := 44 / 10000

def COOLDOWN_PERIOD : ℚ := 60

def SAFETY_PROFIT_THRESHOLD : ℚ := 44 / 10000

def TRADE_FEE_PERCENT : ℚ := 11 / 10000

/-! ## Data structures -/

/-- Order book: bids sorted descending, asks ascending, entries (price, quantity). -/
structure OrderBook where
  bids : List (ℚ × ℚ)
  asks : List (ℚ × ℚ)
deriving Repr, DecidableEq

/-- The global mutable variables of the script gathered into one record:
position_open, order_id, last_sell_time, buy_price, current_sell_price,
ma_crossed.  (historical_prices and the order book are passed separately.) -/
structure BotState where
  position_open : Bool
  order_id : Option ℕ
  last_sell_time : ℚ
  buy_price : ℚ
  current_sell_price : ℚ
  ma_crossed : Bool
deriving Repr, DecidableEq

inductive Side where
  | buy
  | sell
deriving Repr, DecidableEq

/-- A limit order as sent in the POST parameters: side, quantity, price. -/
structure SubmittedOrder where
  side : Side
  quantity : ℚ
  price : ℚ
deriving Repr, DecidableEq

/-- Result of the exchange on an order POST: an error payload (the code key
is present in the JSON) or success with the fresh order id. -/
inductive ExchResp where
  | err
  | ok (orderId : ℕ)
deriving Repr, DecidableEq

/-- Exchange order status values returned by the order-status query. -/
inductive OrderStatus where
  | NEW
  | PARTIALLY_FILLED
  | FILLED
  | CANCELED
  | REJECTED
  | EXPIRED
deriving Repr, DecidableEq

/-- The statuses the script treats as terminal: FILLED, CANCELED, REJECTED, EXPIRED. -/
def OrderStatus.isTerminal : OrderStatus → Bool
  | .FILLED => true
  | .CANCELED => true
  | .REJECTED => true
  | .EXPIRED => true
  | _ => false

/-! ## Fee and pricing calculator -/

/-- calculate_fees(amount, price) = amount * price * TRADE_FEE_PERCENT. -/
def calculate_fees (amount price : ℚ) : ℚ :=
  amount * price * TRADE_FEE_PERCENT

/-- calculate_min_sell_price(buy_price, amount): entry price plus per-unit buy
fee, per-unit sell fee taken at the margin-adjusted price, plus the margin
over the entry price. -/
def calculate_min_sell_price (buy_price amount : ℚ) : ℚ :=
  let buy_fee := calculate_fees amount buy_price
  let sell_fee := calculate_fees amount (buy_price * (1 + MIN_PROFIT_MARGIN))
  buy_price + buy_fee / amount + sell_fee / amount + buy_price * MIN_PROFIT_MARGIN

/-- Models the binance helper round_step_size: the quantity is floored to the
largest multiple of the step not exceeding it (quantity - quantity mod step
in decimal arithmetic). -/
def round_step_size (quantity step_size : ℚ) : ℚ :=
  (⌊quantity / step_size⌋ : ℚ) * step_size

/-- round_quantity delegates to round_step_size. -/
def round_quantity (quantity step_size : ℚ) : ℚ :=
  round_step_size quantity step_size

/-! ## Moving averages

calculate_moving_averages(prices, window) is numpy convolve of the price
series with a ones kernel of length window in valid mode, divided by the
window.  Valid mode keeps the positions of complete overlap and has
max(M, N) - min(M, N) + 1 points; numpy swaps the arguments when the kernel
is longer than the series, so for a series shorter than the window each
point is the sum of the whole series. -/

/-- Sum of the length-window slice of prices starting at index j. -/
def windowSum (prices : List ℚ) (j window : ℕ) : ℚ :=
  ((prices.drop j).take window).sum

/-- Convolution with a ones kernel of length window, valid mode (numpy
semantics, including the swap when the kernel is longer than the series). -/
def convolveValidOnes (prices : List ℚ) (window : ℕ) : List ℚ :=
  if window ≤ prices.length then
    (List.range (prices.length - window + 1)).map (fun j => windowSum prices j window)
  else
    List.replicate (window - prices.length + 1) prices.sum

/-- calculate_moving_averages(prices, window) = convolve(prices, ones(window), valid) / window. -/
def calculate_moving_averages (prices : List ℚ) (window : ℕ) : List ℚ :=
  (convolveValidOnes prices window).map (fun s => s / (window : ℚ))

/-! ## Order placement and reconciliation

Each async function of the script becomes a pure function: the network
inputs it awaits (current balance, exchange response, order status) are
parameters, and the result is the new state paired with the order POSTed
to the exchange, if the function reached the POST.  The eight-decimal
string formatting of quantity and price round-trips exactly for the step
sizes the exchange uses, so it is modelled as the identity. -/

/-- place_buy_order: gate on open position / cooldown / consumed crossover,
require 30 prices and an upward MA3-over-MA6 crossover on the last 30,
require both book sides non-empty, set the global buy_price to the best
bid, check the potential-profit margin, round the quantity by the tick
size, reject below the minimum lot size, then POST; on success mark the
position open, store the order id and the best ask, and consume the
crossover. -/
def place_buy_order (st : BotState) (now : ℚ) (historical_prices : List ℚ)
    (book : OrderBook) (min_lot_size tick_size : ℚ) (resp : ExchResp) :
    BotState × Option SubmittedOrder :=
  if st.position_open = true ∨ now - st.last_sell_time < COOLDOWN_PERIOD ∨
      st.ma_crossed = true then
    (st, none)
  else if historical_prices.length < 30 then (st, none)
  else
    let recent := historical_prices.drop (historical_prices.length - 30)
    let ma3 := calculate_moving_averages recent 3
    let ma6 := calculate_moving_averages recent 6
    if ma3.getLastD 0 ≤ ma6.getLastD 0 then (st, none)
    else if book.bids = [] ∨ book.asks = [] then (st, none)
    else
      let best_bid := (book.bids.headD (0, 0)).1
      let st1 := { st with buy_price := best_bid }
      let min_sell_price := calculate_min_sell_price best_bid (ORDER_AMOUNT_USDT / best_bid)
      let potential_profit := (min_sell_price - best_bid) / best_bid * 100
      if potential_profit < MIN_PROFIT_MARGIN * 100 then (st1, none)
      else
        let quantity := round_quantity (ORDER_AMOUNT_USDT / best_bid) tick_size
        if quantity < min_lot_size then (st1, none)
        else
          let order : SubmittedOrder := ⟨Side.buy, quantity, best_bid⟩
          match resp with
          | ExchResp.err => (st1, some order)
          | ExchResp.ok oid =>
            ({ st1 with position_open := true, order_id := some oid,
                        current_sell_price := (book.asks.headD (0, 0)).1,
                        ma_crossed := true }, some order)

/-- place_sell_order: sell the whole balance; skip on zero balance, round
the quantity by the tick size, reject below the minimum lot size, require
a non-empty bid side; when no price is passed in, use the best bid if it
beats the minimum sell price, else the minimum sell price, rounded by the
tick size; when a price is passed in, raise it to the minimum sell price
if below; POST; on success close the position, drop the order id, stamp
the sell time and reset the crossover flag. -/
def place_sell_order (st : BotState) (now : ℚ) (book : OrderBook)
    (min_lot_size tick_size : ℚ) (balance : ℚ) (sell_price0 : Option ℚ)
    (resp : ExchResp) : BotState × Option SubmittedOrder :=
  if balance ≤ 0 then (st, none)
  else
    let quantity := round_quantity balance tick_size
    if quantity < min_lot_size then (st, none)
    else if book.bids = [] then (st, none)
    else
      let best_bid := (book.bids.headD (0, 0)).1
      let min_sell_price := calculate_min_sell_price st.buy_price quantity
      let sell_price :=
        match sell_price0 with
        | none =>
          round_quantity (if best_bid > min_sell_price then best_bid else min_sell_price)
            tick_size
        | some sp => if sp < min_sell_price then min_sell_price else sp
      let order : SubmittedOrder := ⟨Side.sell, quantity, sell_price⟩
      match resp with
      | ExchResp.err => (st, some order)
      | ExchResp.ok _ =>
        ({ st with position_open := false, order_id := none,
                   last_sell_time := now, ma_crossed := false }, some order)

/-- check_open_order: when an order id is tracked, query its status; a
terminal status clears the id and sets position_open to false, any other
response sets position_open to true. -/
def check_open_order (st : BotState) (statusResp : Option OrderStatus) : BotState :=
  match st.order_id with
  | none => st
  | some _ =>
    match statusResp with
    | some s =>
      if s.isTerminal then { st with position_open := false, order_id := none }
      else { st with position_open := true }
    | none => { st with position_open := true }

/-- check_break_even_sell_order: with an open position and a non-zero entry
price and a non-empty bid side, compute the current profit of the best bid
over the entry price times 100; when it is at or below
SAFETY_PROFIT_THRESHOLD, delegate to place_sell_order with the minimum sell
price (computed on the balance fetched here, balanceA; the sell itself
re-fetches the balance, balanceB). -/
def check_break_even_sell_order (st : BotState) (now : ℚ) (book : OrderBook)
    (min_lot_size tick_size : ℚ) (balanceA balanceB : ℚ) (resp : ExchResp) :
    BotState × Option SubmittedOrder :=
  if st.position_open = false ∨ st.buy_price = 0 then (st, none)
  else if book.bids = [] then (st, none)
  else
    let best_bid := (book.bids.headD (0, 0)).1
    let current_profit := (best_bid - st.buy_price) / st.buy_price * 100
    let min_sell_price := calculate_min_sell_price st.buy_price balanceA
    if current_profit ≤ SAFETY_PROFIT_THRESHOLD then
      place_sell_order st now book min_lot_size tick_size balanceB
        (some min_sell_price) resp
    else (st, none)

/-- A 30-sample price history ending in an upward ramp: the last MA3 value is
(2+3+4)/3 = 3, the last MA6 value is (1+1+1+2+3+4)/6 = 2, so the crossover
gate of the buy evaluation passes. -/
def testPrices : List ℚ := List.replicate 27 1 ++ [2, 3, 4]

/-! ## Helper lemmas -/

/-- The per-unit fees cancel the quantity, so the minimum sell price is a
fixed multiple of the entry price whenever the quantity is non-zero:
1 + feeRate + (1 + margin) * feeRate + margin = 25165121 / 25000000. -/
lemma calculate_min_sell_price_eq (p q : ℚ) (hq : q ≠ 0) :
    calculate_min_sell_price p q = p * (25165121 / 25000000) := by
  unfold calculate_min_sell_price calculate_fees MIN_PROFIT_MARGIN TRADE_FEE_PERCENT
  field_simp
  ring

/-- Full evaluation of a buy cycle on testPrices that reaches the POST and
succeeds: every gate passes, the quantity 100/200 = 0.5 tick-rounds to 0.5,
which meets the minimum lot size 1/10. -/
lemma testPrices_buy_submit :
    place_buy_order ⟨false, none, 0, 0, 0, false⟩ 1000 testPrices
      ⟨[(200, 1)], [(201, 1)]⟩ (1 / 10) (1 / 100) (ExchResp.ok 7) =
    (⟨true, some 7, 0, 200, 201, true⟩, some ⟨Side.buy, 1 / 2, 200⟩) := by
  norm_num [place_buy_order, testPrices, calculate_moving_averages, convolveValidOnes,
    windowSum, List.replicate, List.range_succ, round_quantity, round_step_size,
    calculate_min_sell_price, calculate_fees, MIN_PROFIT_MARGIN, TRADE_FEE_PERCENT,
    ORDER_AMOUNT_USDT, COOLDOWN_PERIOD, List.getLastD]

/-- Full evaluation of a buy cycle on testPrices that is rejected at the
minimum-lot-size check (0.5 < 1): no order is POSTed, yet the entry price
global has already been overwritten with the best bid 200. -/
lemma testPrices_buy_reject :
    place_buy_order ⟨false, none, 0, 0, 0, false⟩ 1000 testPrices
      ⟨[(200, 1)], [(201, 1)]⟩ 1 (1 / 100) (ExchResp.ok 1) =
    (⟨false, none, 0, 200, 0, false⟩, none) := by
  norm_num [place_buy_order, testPrices, calculate_moving_averages, convolveValidOnes,
    windowSum, List.replicate, List.range_succ, round_quantity, round_step_size,
    calculate_min_sell_price, calculate_fees, MIN_PROFIT_MARGIN, TRADE_FEE_PERCENT,
    ORDER_AMOUNT_USDT, COOLDOWN_PERIOD, List.getLastD]

end Bot

namespace Bot

/-- C1: the claim reports minSellPrice(100, 1000) ≈ 100.5511; against the code
the formula yields exactly 100.660484, which is more than 0.1 away from
100.5511 (the buy fee is 0.11, the sell fee 0.110484 and the margin 0.44,
summing to 0.660484 over the entry price, not 0.5511). -/
theorem C1_counterexample :
    calculate_min_sell_price 100 1000 = 25165121 / 250000 ∧
    1 / 10 < |calculate_min_sell_price 100 1000 - 1005511 / 10000| := by
  constructor
  · norm_num [calculate_min_sell_price, calculate_fees, MIN_PROFIT_MARGIN, TRADE_FEE_PERCENT]
  · rw [abs_of_pos] <;>
      norm_num [calculate_min_sell_price, calculate_fees, MIN_PROFIT_MARGIN, TRADE_FEE_PERCENT]

/-- C1 (amended): for entryPrice=100, quantity=1000 the minimum-sell-price
formula returns exactly 100.660484 = 100 + 0.11 (buy fee per unit)
+ 0.110484 (sell fee per unit at the margin-adjusted price) + 0.44 (margin),
reproducible exactly from the stated formula. -/
theorem C1_min_sell_price_value :
    calculate_min_sell_price 100 1000 =
      100 + 11 / 100 + 110484 / 1000000 + 44 / 100 := by
  norm_num [calculate_min_sell_price, calculate_fees, MIN_PROFIT_MARGIN, TRADE_FEE_PERCENT]

/-- C8: for fixed quantity qty > 0, minSellPrice is strictly monotone in the
entry price, and for every positive entry price it strictly exceeds
entryPrice * (1 + minProfitMargin). -/
theorem C8_min_sell_price_monotone_exceeds (q p₁ p₂ : ℚ) (hq : 0 < q) :
    (p₁ < p₂ → calculate_min_sell_price p₁ q < calculate_min_sell_price p₂ q) ∧
    (0 < p₁ → p₁ * (1 + MIN_PROFIT_MARGIN) < calculate_min_sell_price p₁ q) := by
  rw [calculate_min_sell_price_eq p₁ q hq.ne', calculate_min_sell_price_eq p₂ q hq.ne']
  constructor
  · intro h
    nlinarith
  · intro hp
    rw [MIN_PROFIT_MARGIN]
    nlinarith

/-- C8 witness: instantiation at qty = 1, entry prices 1 < 2. -/
theorem C8_witness :
    (calculate_min_sell_price 1 1 < calculate_min_sell_price 2 1) ∧
    (1 * (1 + MIN_PROFIT_MARGIN) < calculate_min_sell_price 1 1) :=
  ⟨(C8_min_sell_price_monotone_exceeds 1 1 2 (by norm_num)).1 (by norm_num),
   (C8_min_sell_price_monotone_exceeds 1 1 2 (by norm_num)).2 (by norm_num)⟩

/-- C10: for every positive best bid p, the potential profit computed in the
buy evaluation, (minSellPrice(p, notional/p) - p)/p, equals the constant
minProfitMargin + feeRate * (2 + minProfitMargin); this constant strictly
exceeds minProfitMargin, and the rejection test
potential_profit * 100 < minProfitMargin * 100 is false, so the rejection
branch is unreachable. -/
theorem C10_profit_gate_vacuous (p : ℚ) (hp : 0 < p) :
    (calculate_min_sell_price p (ORDER_AMOUNT_USDT / p) - p) / p =
      MIN_PROFIT_MARGIN + TRADE_FEE_PERCENT * (2 + MIN_PROFIT_MARGIN) ∧
    MIN_PROFIT_MARGIN <
      MIN_PROFIT_MARGIN + TRADE_FEE_PERCENT * (2 + MIN_PROFIT_MARGIN) ∧
    ¬ ((calculate_min_sell_price p (ORDER_AMOUNT_USDT / p) - p) / p * 100 <
        MIN_PROFIT_MARGIN * 100) := by
  have hq : ORDER_AMOUNT_USDT / p ≠ 0 := by
    rw [ORDER_AMOUNT_USDT]
    positivity
  rw [calculate_min_sell_price_eq p _ hq]
  have hp' : p ≠ 0 := hp.ne'
  refine ⟨by field_simp; norm_num [MIN_PROFIT_MARGIN, TRADE_FEE_PERCENT]; ring, ?_, ?_⟩
  · norm_num [MIN_PROFIT_MARGIN, TRADE_FEE_PERCENT]
  · rw [not_lt]
    have h1 : (p * (25165121 / 25000000) - p) / p * 100 = 165121 / 250000 := by
      field_simp
      ring
    rw [h1, MIN_PROFIT_MARGIN]
    norm_num

/-- C9: the claim states calculate_moving_averages is empty for a series
shorter than the window; numpy convolve in valid mode instead swaps the
arguments, so the series [1, 2, 3] with window 6 yields the four values
(1+2+3)/6 repeated, not the empty list. -/
theorem C9_counterexample :
    calculate_moving_averages [1, 2, 3] 6 = [1, 1, 1, 1] ∧
    ([1, 1, 1, 1] : List ℚ) ≠ [] := by
  refine ⟨?_, by simp⟩
  norm_num [calculate_moving_averages, convolveValidOnes, windowSum, List.replicate]

/-- C9 (amended): for series length ≥ window the moving average has exactly
length - window + 1 entries, the j-th being the mean of the length-window
slice starting at j; for a non-empty series shorter than the window it has
window - length + 1 entries, each equal to the series sum divided by the
window (numpy valid-mode convolution, not empty); and the buy evaluation
returns no order and leaves the state unchanged for any price history
shorter than 30 samples, hence in particular for any series shorter than
the long window 6. -/
theorem C9_moving_average_shape :
    (∀ (prices : List ℚ) (window : ℕ), 0 < window → window ≤ prices.length →
      (calculate_moving_averages prices window).length = prices.length - window + 1 ∧
      ∀ (j : ℕ) (hj : j < (calculate_moving_averages prices window).length),
        (calculate_moving_averages prices window).get ⟨j, hj⟩ =
          ((prices.drop j).take window).sum / window) ∧
    (∀ (prices : List ℚ) (window : ℕ), 0 < prices.length → prices.length < window →
      (calculate_moving_averages prices window).length = window - prices.length + 1 ∧
      ∀ x ∈ calculate_moving_averages prices window, x = prices.sum / window) ∧
    (∀ (st : BotState) (now : ℚ) (historical_prices : List ℚ) (book : OrderBook)
        (mls ts : ℚ) (resp : ExchResp), historical_prices.length < 30 →
      place_buy_order st now historical_prices book mls ts resp = (st, none)) := by
  refine ⟨?_, ?_, ?_⟩
  · intro prices window _ hlen
    unfold calculate_moving_averages convolveValidOnes
    rw [if_pos hlen]
    refine ⟨by simp, ?_⟩
    intro j hj
    simp [windowSum]
  · intro prices window _ hlt
    unfold calculate_moving_averages convolveValidOnes
    rw [if_neg (not_le.mpr hlt)]
    refine ⟨by simp, ?_⟩
    intro x hx
    simp only [List.map_replicate, List.mem_replicate] at hx
    exact hx.2
  · intro st now historical_prices book mls ts resp h
    unfold place_buy_order
    split <;> simp [h]

/-- C9 witness: the shape at [1, 2, 3, 4] with window 3, at [1, 2, 3] with
window 6, and the no-buy guard on the three-sample history. -/
theorem C9_witness :
    (calculate_moving_averages [1, 2, 3, 4] 3).length = 4 - 3 + 1 ∧
    (calculate_moving_averages [1, 2, 3] 6).length = 6 - 3 + 1 ∧
    place_buy_order ⟨false, none, 0, 0, 0, false⟩ 0 [1, 2, 3] ⟨[], []⟩ 1 1
      (ExchResp.ok 1) = (⟨false, none, 0, 0, 0, false⟩, none) :=
  ⟨(C9_moving_average_shape.1 [1, 2, 3, 4] 3 (by norm_num) (by norm_num)).1,
   (C9_moving_average_shape.2.1 [1, 2, 3] 6 (by norm_num) (by norm_num)).1,
   C9_moving_average_shape.2.2 ⟨false, none, 0, 0, 0, false⟩ 0 [1, 2, 3] ⟨[], []⟩ 1 1
     (ExchResp.ok 1) (by norm_num)⟩

/-- C7: whenever the buy evaluation submits an order, the position was not
open, at least the cooldown period has elapsed since the last exit, and the
crossover had not been consumed: the first gate of place_buy_order returns
without an order in every other situation. -/
theorem C7_buy_gates (st : BotState) (now : ℚ) (historical_prices : List ℚ)
    (book : OrderBook) (mls ts : ℚ) (resp : ExchResp) (o : SubmittedOrder)
    (h : (place_buy_order st now historical_prices book mls ts resp).2 = some o) :
    st.position_open = false ∧ COOLDOWN_PERIOD ≤ now - st.last_sell_time ∧
      st.ma_crossed = false := by
  unfold place_buy_order at h
  split at h
  · simp at h
  · rename_i hgate
    push_neg at hgate
    obtain ⟨h1, h2, h3⟩ := hgate
    exact ⟨by simpa using h1, h2, by simpa using h3⟩

/-- C7 witness: a flat, cooled-down, unconsumed state on testPrices does
submit a buy, and the three gate conditions hold there. -/
theorem C7_witness :
    (⟨false, none, 0, 0, 0, false⟩ : BotState).position_open = false ∧
    COOLDOWN_PERIOD ≤ 1000 - (⟨false, none, 0, 0, 0, false⟩ : BotState).last_sell_time ∧
    (⟨false, none, 0, 0, 0, false⟩ : BotState).ma_crossed = false :=
  C7_buy_gates ⟨false, none, 0, 0, 0, false⟩ 1000 testPrices ⟨[(200, 1)], [(201, 1)]⟩
    (1 / 10) (1 / 100) (ExchResp.ok 7) ⟨Side.buy, 1 / 2, 200⟩
    (by rw [testPrices_buy_submit])

/-- C5: a buy evaluation that passes the crossover and order-book gates but
is rejected at the minimum-lot-size check submits nothing, yet overwrites
the entry-price global with the best bid 200 (it was 0 before), so a
rejected submission does not leave the PositionState unchanged. -/
theorem C5_counterexample :
    (place_buy_order ⟨false, none, 0, 0, 0, false⟩ 1000 testPrices
        ⟨[(200, 1)], [(201, 1)]⟩ 1 (1 / 100) (ExchResp.ok 1)).2 = none ∧
    (place_buy_order ⟨false, none, 0, 0, 0, false⟩ 1000 testPrices
        ⟨[(200, 1)], [(201, 1)]⟩ 1 (1 / 100) (ExchResp.ok 1)).1.buy_price = 200 ∧
    (⟨false, none, 0, 0, 0, false⟩ : BotState).buy_price ≠ 200 := by
  rw [testPrices_buy_reject]
  norm_num

/-- C5 (amended): a rejected or errored buy submission leaves isOpen, the
active order id, the last exit timestamp and the crossover flag unchanged,
but may overwrite the entry price; a rejected or errored sell submission
leaves the whole state unchanged. -/
theorem C5_rejected_submission_frame :
    (∀ (st : BotState) (now : ℚ) (historical_prices : List ℚ) (book : OrderBook)
        (mls ts : ℚ) (resp : ExchResp),
      (place_buy_order st now historical_prices book mls ts resp).2 = none ∨
        resp = ExchResp.err →
      (place_buy_order st now historical_prices book mls ts resp).1.position_open =
          st.position_open ∧
      (place_buy_order st now historical_prices book mls ts resp).1.order_id =
          st.order_id ∧
      (place_buy_order st now historical_prices book mls ts resp).1.last_sell_time =
          st.last_sell_time ∧
      (place_buy_order st now historical_prices book mls ts resp).1.ma_crossed =
          st.ma_crossed) ∧
    (∀ (st : BotState) (now : ℚ) (book : OrderBook) (mls ts bal : ℚ)
        (sp0 : Option ℚ) (resp : ExchResp),
      (place_sell_order st now book mls ts bal sp0 resp).2 = none ∨
        resp = ExchResp.err →
      (place_sell_order st now book mls ts bal sp0 resp).1 = st) := by
  constructor
  · intro st now historical_prices book mls ts resp
    simp only [place_buy_order]
    repeat' split
    all_goals intro h
    all_goals try exact ⟨rfl, rfl, rfl, rfl⟩
    all_goals rcases h with h | h <;> simp_all
  · intro st now book mls ts bal sp0 resp
    simp only [place_sell_order]
    repeat' split
    all_goals intro h
    all_goals try rfl
    all_goals rcases h with h | h <;> simp_all

/-- C5 witness: a buy evaluation gated by an open position and a sell
evaluation with zero balance both reject and preserve the state. -/
theorem C5_witness :
    ((place_buy_order ⟨true, some 3, 0, 5, 0, true⟩ 0 [] ⟨[], []⟩ 1 1
        (ExchResp.ok 2)).1.position_open = (⟨true, some 3, 0, 5, 0, true⟩ : BotState).position_open ∧
      (place_buy_order ⟨true, some 3, 0, 5, 0, true⟩ 0 [] ⟨[], []⟩ 1 1
        (ExchResp.ok 2)).1.order_id = (⟨true, some 3, 0, 5, 0, true⟩ : BotState).order_id ∧
      (place_buy_order ⟨true, some 3, 0, 5, 0, true⟩ 0 [] ⟨[], []⟩ 1 1
        (ExchResp.ok 2)).1.last_sell_time = (⟨true, some 3, 0, 5, 0, true⟩ : BotState).last_sell_time ∧
      (place_buy_order ⟨true, some 3, 0, 5, 0, true⟩ 0 [] ⟨[], []⟩ 1 1
        (ExchResp.ok 2)).1.ma_crossed = (⟨true, some 3, 0, 5, 0, true⟩ : BotState).ma_crossed) ∧
    (place_sell_order ⟨true, some 3, 0, 5, 0, true⟩ 9 ⟨[], []⟩ 1 1 0 none
        (ExchResp.ok 2)).1 = ⟨true, some 3, 0, 5, 0, true⟩ :=
  ⟨C5_rejected_submission_frame.1 ⟨true, some 3, 0, 5, 0, true⟩ 0 [] ⟨[], []⟩ 1 1
      (ExchResp.ok 2) (Or.inl (by norm_num [place_buy_order])),
   C5_rejected_submission_frame.2 ⟨true, some 3, 0, 5, 0, true⟩ 9 ⟨[], []⟩ 1 1 0 none
      (ExchResp.ok 2) (Or.inl (by norm_num [place_sell_order]))⟩

/-- C4: a successful sell from an open position at entry price 100 flips
isOpen to false but leaves the entry price at 100, not 0: the claimed
invariant that a closed position has entry price zero fails. -/
theorem C4_counterexample :
    (place_sell_order ⟨true, some 4, 0, 100, 0, true⟩ 500 ⟨[(101, 1)], []⟩ 1 (1 / 100)
        1000 none (ExchResp.ok 8)).1.position_open = false ∧
    (place_sell_order ⟨true, some 4, 0, 100, 0, true⟩ 500 ⟨[(101, 1)], []⟩ 1 (1 / 100)
        1000 none (ExchResp.ok 8)).1.buy_price = 100 ∧
    (100 : ℚ) ≠ 0 := by
  norm_num [place_sell_order, round_quantity, round_step_size, calculate_min_sell_price,
    calculate_fees, MIN_PROFIT_MARGIN, TRADE_FEE_PERCENT]

/-- C4 (amended): on a successful sell submission the state machine clears
the active order id, resets the crossover flag, stamps the exit timestamp
and closes the position, but the entry price keeps its previous value (the
code never zeroes buy_price), so isOpen = false does not imply
entryPrice = 0. -/
theorem C4_sell_transition (st : BotState) (now : ℚ) (book : OrderBook)
    (mls ts bal : ℚ) (sp0 : Option ℚ) (oid : ℕ) (st2 : BotState) (o : SubmittedOrder)
    (h : place_sell_order st now book mls ts bal sp0 (ExchResp.ok oid) = (st2, some o)) :
    st2.position_open = false ∧ st2.order_id = none ∧ st2.last_sell_time = now ∧
      st2.ma_crossed = false ∧ st2.buy_price = st.buy_price ∧
      st2.current_sell_price = st.current_sell_price := by
  simp only [place_sell_order] at h
  repeat' split at h
  all_goals injection h with h1 h2
  all_goals first
    | exact Option.noConfusion h2
    | (subst h1; exact ⟨rfl, rfl, rfl, rfl, rfl, rfl⟩)

/-- C4 witness: the concrete successful sell of C4 state transition. -/
theorem C4_witness :
    (⟨false, none, 500, 100, 0, false⟩ : BotState).position_open = false ∧
    (⟨false, none, 500, 100, 0, false⟩ : BotState).order_id = none ∧
    (⟨false, none, 500, 100, 0, false⟩ : BotState).last_sell_time = 500 ∧
    (⟨false, none, 500, 100, 0, false⟩ : BotState).ma_crossed = false ∧
    (⟨false, none, 500, 100, 0, false⟩ : BotState).buy_price =
      (⟨true, some 4, 0, 100, 0, true⟩ : BotState).buy_price ∧
    (⟨false, none, 500, 100, 0, false⟩ : BotState).current_sell_price =
      (⟨true, some 4, 0, 100, 0, true⟩ : BotState).current_sell_price :=
  C4_sell_transition ⟨true, some 4, 0, 100, 0, true⟩ 500 ⟨[(101, 1)], []⟩ 1 (1 / 100)
    1000 none 8 ⟨false, none, 500, 100, 0, false⟩ ⟨Side.sell, 1000, 101⟩
    (by norm_num [place_sell_order, round_quantity, round_step_size,
      calculate_min_sell_price, calculate_fees, MIN_PROFIT_MARGIN, TRADE_FEE_PERCENT])

/-- C6: reconciliation of a FILLED tracked order clears the order id but
also flips position_open from true to false, contradicting the claim that
isOpen is left unchanged. -/
theorem C6_counterexample :
    (check_open_order ⟨true, some 1, 0, 100, 0, true⟩ (some OrderStatus.FILLED)).position_open
      = false ∧
    (⟨true, some 1, 0, 100, 0, true⟩ : BotState).position_open = true ∧
    (check_open_order ⟨true, some 1, 0, 100, 0, true⟩ (some OrderStatus.FILLED)).order_id
      = none := by
  simp [check_open_order, OrderStatus.isTerminal]

/-- C6 (amended): with a tracked order, observing a terminal status clears
the order id and sets isOpen to false, leaving every other field unchanged. -/
theorem C6_reconciliation (st : BotState) (oid : ℕ) (s : OrderStatus)
    (h : st.order_id = some oid) (ht : s.isTerminal = true) :
    check_open_order st (some s) = { st with position_open := false, order_id := none } := by
  simp [check_open_order, h, ht]

/-- C6 witness: a CANCELED status on a tracked open position clears the id
and sets the open flag to false, all other fields kept. -/
theorem C6_witness :
    check_open_order ⟨true, some 2, 0, 100, 0, true⟩ (some OrderStatus.CANCELED) =
      ⟨false, none, 0, 100, 0, true⟩ :=
  C6_reconciliation ⟨true, some 2, 0, 100, 0, true⟩ 2 OrderStatus.CANCELED rfl rfl

/-- C2: with an open position at entry 100 and best bid 100.3 the profit
ratio 0.003 is at or below the claimed threshold 0.0044, so the claim
requires a safety sell; the code compares the ratio times 100 (0.3) with
0.0044 and submits nothing. -/
theorem C2_threshold_divergence :
    check_break_even_sell_order ⟨true, some 5, 0, 100, 0, true⟩ 1000
      ⟨[(1003 / 10, 5)], []⟩ 1 (1 / 100) 1000 1000 (ExchResp.ok 9) =
      (⟨true, some 5, 0, 100, 0, true⟩, none) ∧
    ((1003 / 10 : ℚ) - 100) / 100 ≤ SAFETY_PROFIT_THRESHOLD := by
  constructor
  · norm_num [check_break_even_sell_order, SAFETY_PROFIT_THRESHOLD,
      calculate_min_sell_price, calculate_fees, MIN_PROFIT_MARGIN, TRADE_FEE_PERCENT]
  · norm_num [SAFETY_PROFIT_THRESHOLD]

/-- C3: for a raw quantity 33.333 with minimum lot size 1 and tick size
0.01 the code submits a sell with quantity 33.33 (rounded by the tick
size), whereas rounding down to a multiple of the lot size gives 33. -/
theorem C3_quantity_rounding_divergence :
    (place_sell_order ⟨false, none, 0, 0, 0, false⟩ 7 ⟨[(2, 1)], []⟩ 1 (1 / 100)
        (33333 / 1000) none (ExchResp.ok 3)).2 = some ⟨Side.sell, 3333 / 100, 2⟩ ∧
    round_step_size (33333 / 1000) 1 = 33 ∧
    (3333 / 100 : ℚ) ≠ 33 := by
  refine ⟨?_, by norm_num [round_step_size], by norm_num⟩
  norm_num [place_sell_order, round_quantity, round_step_size, calculate_min_sell_price,
    calculate_fees, MIN_PROFIT_MARGIN, TRADE_FEE_PERCENT]

/-- C10 witness: instantiation at best bid p = 200. -/
theorem C10_witness :
    (calculate_min_sell_price 200 (ORDER_AMOUNT_USDT / 200) - 200) / 200 =
      MIN_PROFIT_MARGIN + TRADE_FEE_PERCENT * (2 + MIN_PROFIT_MARGIN) ∧
    MIN_PROFIT_MARGIN <
      MIN_PROFIT_MARGIN + TRADE_FEE_PERCENT * (2 + MIN_PROFIT_MARGIN) ∧
    ¬ ((calculate_min_sell_price 200 (ORDER_AMOUNT_USDT / 200) - 200) / 200 * 100 <
        MIN_PROFIT_MARGIN * 100) :=
  C10_profit_gate_vacuous 200 (by norm_num)

end Bot
